import Mathlib

/-!
Shallow embedding of the astreus WhatsApp plugin (src/client.ts and the
plugin adapter) together with proofs about the claims of its specification.

Conventions of the embedding:
* JavaScript `Map` objects become association lists (`mapLookup` / `mapSet` /
  `mapErase` mirror `Map.get` / `Map.set` / `Map.delete`, preserving insertion
  order, with `set` replacing in place).
* JavaScript truthiness on the optional string fields of the configuration and
  option records is `strTruthy` (`undefined` ↦ `none`, falsy iff absent or
  empty); truthiness of dynamic tool parameters is `truthy` over `JsValue`.
* Network traffic is modelled by a `World` record that carries the vendor
  responses an operation would receive; each operation additionally reports
  the list of HTTP requests it issued, so "no network call occurred" is
  `requests = []`.
* Timestamps (`Date.now()`) are integers supplied explicitly as `now`.
-/

/-- JavaScript runtime values as they appear in the dynamic
`Record<string, any>` parameter bags handed to tool handlers.  Object and
array contents are never inspected by any handler's validation, so those two
constructors are kept opaque. -/
inductive JsValue where
  | vundefined
  | vnull
  | vbool (b : Bool)
  | vnum (n : Int)
  | vstr (s : String)
  | vobj
  | varr
  deriving DecidableEq, Repr

/-- JavaScript truthiness (`!x` is `truthy x = false`). -/
def truthy : JsValue → Bool
  | .vundefined => false
  | .vnull => false
  | .vbool b => b
  | .vnum n => n != 0
  | .vstr s => s != ""
  | .vobj => true
  | .varr => true

/-- Truthiness of a `string | undefined` TypeScript value. -/
def strTruthy : Option String → Bool
  | none => false
  | some s => s != ""

/-- `a || b` on `string | undefined` values. -/
def jsOrStr (a b : Option String) : Option String :=
  if strTruthy a then a else b

/-- Read a string out of a dynamic value; tool parameters declared `string`
in the manifests are strings at runtime, other shapes are out of scope. -/
def asStr : JsValue → String
  | .vstr s => s
  | _ => ""

/-- Read an optional string out of a dynamic value. -/
def asStrOpt : JsValue → Option String
  | .vstr s => some s
  | _ => none

/-- Association-list lookup, mirroring `Map.get`. -/
def mapLookup {α : Type} : List (String × α) → String → Option α
  | [], _ => none
  | (k', v) :: rest, k => if k' = k then some v else mapLookup rest k

/-- `Map.set`: replace in place when the key exists, append otherwise
(JavaScript `Map` preserves the original insertion position on overwrite). -/
def mapSet {α : Type} : List (String × α) → String → α → List (String × α)
  | [], k, v => [(k, v)]
  | (k', v') :: rest, k, v =>
    if k' = k then (k, v) :: rest else (k', v') :: mapSet rest k v

/-- `Map.delete` (the entry removal part). -/
def mapErase {α : Type} : List (String × α) → String → List (String × α)
  | [], _ => []
  | (k', v') :: rest, k =>
    if k' = k then rest else (k', v') :: mapErase rest k

/-- `Map.values()` in insertion order. -/
def mapValues {α : Type} (m : List (String × α)) : List α := m.map (·.2)

/-- Dynamic parameter record handed to a tool handler.  Reading an absent
field yields `undefined`. -/
abbrev Params : Type := List (String × JsValue)

/-- Property access `params.k` on a dynamic record. -/
def getF (params : Params) (k : String) : JsValue :=
  match mapLookup params k with
  | some v => v
  | none => .vundefined

/-- `sub` occurs verbatim inside `s`. -/
def strContains (s sub : String) : Prop :=
  ∃ pre post : String, s = pre ++ sub ++ post

/-- Remove the first occurrence of `pat` from a character list
(JavaScript `String.prototype.replace(pat, '')` with a string pattern). -/
def removeFirstOcc : List Char → List Char → List Char
  | [], _ => []
  | c :: cs, pat =>
    if pat.isPrefixOf (c :: cs) then (c :: cs).drop pat.length
    else c :: removeFirstOcc cs pat

/-- `s.replace(pat, '')` — JavaScript removes only the first occurrence. -/
def removeFirstOccStr (s pat : String) : String :=
  ⟨removeFirstOcc s.data pat.data⟩

/-! ## Configuration (src/client.ts constructor, src/types.ts) -/

/-- `WhatsAppConfig` from src/types.ts: every field optional. -/
structure WhatsAppConfig where
  apiVersion : Option String := none
  apiToken : Option String := none
  phoneNumberId : Option String := none
  businessAccountId : Option String := none
  cacheMessageSeconds : Option Nat := none
  cacheContactSeconds : Option Nat := none
  requestTimeout : Option Nat := none
  deriving DecidableEq, Repr

/-- The environment variables the client constructor consults.  Numeric
variables are modelled already parsed (`Number(x || 'default')`), with `none`
standing for an absent or empty variable. -/
structure EnvVars where
  WHATSAPP_API_VERSION : Option String := none
  WHATSAPP_API_TOKEN : Option String := none
  WHATSAPP_PHONE_NUMBER_ID : Option String := none
  WHATSAPP_BUSINESS_ACCOUNT_ID : Option String := none
  CACHE_MESSAGE_SECONDS : Option Nat := none
  CACHE_CONTACT_SECONDS : Option Nat := none
  DEFAULT_REQUEST_TIMEOUT : Option Nat := none
  deriving DecidableEq, Repr

/-- `config?.field` — optional chaining through the optional config object. -/
def cfgField {α : Type} (config : Option WhatsAppConfig)
    (f : WhatsAppConfig → Option α) : Option α :=
  match config with
  | some c => f c
  | none => none

/-- `config?.n || Number(env || 'dflt')` for the numeric settings (`0` is
falsy in JavaScript, so an explicit `0` override falls through). -/
def jsOrNat (cfg : Option Nat) (envVal : Option Nat) (dflt : Nat) : Nat :=
  match cfg with
  | some n => if n ≠ 0 then n else envVal.getD dflt
  | none => envVal.getD dflt

/-- The configuration record after the constructor's resolution
(`this.config` in src/client.ts lines 36–44). -/
structure ResolvedConfig where
  apiVersion : String
  apiToken : Option String
  phoneNumberId : Option String
  businessAccountId : Option String
  cacheMessageSeconds : Nat
  cacheContactSeconds : Nat
  requestTimeout : Nat
  deriving DecidableEq, Repr

/-- Resolution order of src/client.ts lines 36–44: explicit override, then
environment, then hardcoded default. -/
def resolveConfig (config : Option WhatsAppConfig) (env : EnvVars) : ResolvedConfig :=
  { apiVersion :=
      (jsOrStr (cfgField config (·.apiVersion))
        (jsOrStr env.WHATSAPP_API_VERSION (some "v17.0"))).getD "v17.0"
    apiToken := jsOrStr (cfgField config (·.apiToken)) env.WHATSAPP_API_TOKEN
    phoneNumberId :=
      jsOrStr (cfgField config (·.phoneNumberId)) env.WHATSAPP_PHONE_NUMBER_ID
    businessAccountId :=
      jsOrStr (cfgField config (·.businessAccountId)) env.WHATSAPP_BUSINESS_ACCOUNT_ID
    cacheMessageSeconds :=
      jsOrNat (cfgField config (·.cacheMessageSeconds)) env.CACHE_MESSAGE_SECONDS 300
    cacheContactSeconds :=
      jsOrNat (cfgField config (·.cacheContactSeconds)) env.CACHE_CONTACT_SECONDS 3600
    requestTimeout :=
      jsOrNat (cfgField config (·.requestTimeout)) env.DEFAULT_REQUEST_TIMEOUT 30000 }

/-- `WhatsAppContact` from src/types.ts. -/
structure WhatsAppContact where
  id : String
  name : Option String := none
  isBusiness : Option Bool := none
  profilePictureUrl : Option String := none
  deriving DecidableEq, Repr

/-- A contact-cache entry: `{ data, timestamp }` as stored by
`getContactInfo` (src/client.ts lines 448–451). -/
structure ContactEntry where
  data : WhatsAppContact
  timestamp : Int
  deriving DecidableEq, Repr

/-- The mutable state of a `WhatsAppClient` instance: the resolved
configuration and the two in-memory caches (src/client.ts lines 26–28).
`messageCache` stores arbitrary values; no operation ever touches it, so its
value type is irrelevant and kept as `JsValue`. -/
structure ClientState where
  config : ResolvedConfig
  messageCache : List (String × JsValue)
  contactCache : List (String × ContactEntry)
  deriving DecidableEq, Repr

/-- The constructor of `WhatsAppClient` (src/client.ts lines 34–64):
resolve the configuration, then fail when the token or the phone-number id
is missing; both caches start empty. -/
def WhatsAppClient.mkClient (config : Option WhatsAppConfig) (env : EnvVars) :
    Except String ClientState :=
  if strTruthy (resolveConfig config env).apiToken = false then
    .error "WhatsApp API token is required"
  else if strTruthy (resolveConfig config env).phoneNumberId = false then
    .error "WhatsApp phone number ID is required"
  else
    .ok { config := resolveConfig config env, messageCache := [], contactCache := [] }

/-- `isConfigured` (src/client.ts lines 70–72). -/
def isConfigured (st : ClientState) : Bool :=
  strTruthy st.config.apiToken && strTruthy st.config.phoneNumberId

/-- `formatPhoneNumber` (src/client.ts lines 461–469) on the character data:
a leading `'+'` is removed and nothing else is touched; otherwise every
non-digit character is stripped (`replace(/\D/g, '')`). -/
def formatDigits : List Char → List Char
  | '+' :: rest => rest
  | cs => cs.filter fun c => c.isDigit

/-- `formatPhoneNumber` (src/client.ts lines 461–469). -/
def formatPhoneNumber (phoneNumber : String) : String :=
  ⟨formatDigits phoneNumber.data⟩

/-! ## Vendor responses and the network world -/

/-- One entry of the `messages` array of a Cloud API send response. -/
structure MsgEntry where
  id : String
  deriving DecidableEq, Repr

/-- `response.data` of a `POST /{phoneNumberId}/messages` call; the
`messages` field may be absent. -/
structure MessagesData where
  messages : Option (List MsgEntry)
  deriving DecidableEq, Repr

/-- `response.data` of a `POST /{phoneNumberId}/media` upload; the `id`
field may be absent. -/
structure UploadData where
  id : Option String
  deriving DecidableEq, Repr

/-- An HTTP request the client would issue; operations report the list of
requests they made, so "no network call" is `[]`. -/
inductive NetReq where
  | uploadMedia (filePath : String)
  | postMessages
  deriving DecidableEq, Repr

/-- The environment of one operation: the vendor responses it would receive,
whether local files exist, and the current clock. -/
structure World where
  messagesResp : Option MessagesData
  uploadResp : Option UploadData
  profileResp : List JsValue
  fileExists : String → Bool
  now : Int

/-- The message-id extraction shared by every send operation
(src/client.ts lines 97–101 and the analogous blocks): the id of the first
entry of `response.data.messages` when that list is non-empty, else `''`. -/
def extractMessageId (data : Option MessagesData) : String :=
  match data with
  | some d =>
    match d.messages with
    | some (m :: _) => m.id
    | some [] => ""
    | none => ""
  | none => ""

/-! ## Client send operations -/

/-- The text-message envelope posted by `sendMessage`
(src/client.ts lines 84–95). -/
structure TextPayload where
  messaging_product : String
  recipient_type : String
  «to» : String
  type : String
  body : String
  deriving DecidableEq, Repr

/-- `sendMessage` (src/client.ts lines 80–106), success path: the payload it
posts and the message id it returns. -/
def client_sendMessage («to» message : String) (w : World) : TextPayload × String :=
  ({ messaging_product := "whatsapp", recipient_type := "individual",
     «to» := formatPhoneNumber «to», type := "text", body := message },
   extractMessageId w.messagesResp)

/-- `uploadMedia` (src/client.ts lines 372–401): fails without a request
when the file does not exist; issues the upload request and fails when the
response carries no (truthy) id; returns the media id otherwise. -/
def client_uploadMedia (filePath : String) (w : World) :
    Except String String × List NetReq :=
  if w.fileExists filePath = false then
    (.error ("File not found: " ++ filePath), [])
  else
    match w.uploadResp with
    | some d =>
      if strTruthy d.id then (.ok (d.id.getD ""), [.uploadMedia filePath])
      else (.error "Failed to upload media: No media ID received", [.uploadMedia filePath])
    | none => (.error "Failed to upload media: No media ID received", [.uploadMedia filePath])

/-- `MediaMessageOptions` from src/types.ts. -/
structure MediaMessageOptions where
  «to» : String
  type : String
  url : Option String := none
  filePath : Option String := none
  caption : Option String := none
  filename : Option String := none
  deriving DecidableEq, Repr

/-- The media sub-object `payload[mediaType]` built by `sendMedia`
(src/client.ts lines 176–192). -/
structure MediaObject where
  id : Option String := none
  link : Option String := none
  caption : Option String := none
  filename : Option String := none
  deriving DecidableEq, Repr

/-- The envelope posted by `sendMedia` (src/client.ts lines 168–192). -/
structure MediaPayload where
  messaging_product : String
  recipient_type : String
  «to» : String
  type : String
  media : MediaObject
  deriving DecidableEq, Repr

/-- The caption/filename merging of `sendMedia`
(src/client.ts lines 184–192): caption is added when truthy, filename only
for `document` type media. -/
def mergeCaptionFilename (m0 : MediaObject) (opts : MediaMessageOptions)
    (mediaType : String) : MediaObject :=
  let m1 := if strTruthy opts.caption then { m0 with caption := opts.caption } else m0
  if mediaType = "document" && strTruthy opts.filename then
    { m1 with filename := opts.filename }
  else m1

/-- `sendMedia` (src/client.ts lines 156–208).  Uploads first when a truthy
`filePath` is given; the media sub-object holds `{id}` when an upload
produced a media id, else `{link}` when a truthy `url` is given, else the
operation fails before issuing any request; caption is merged in when
truthy, filename only for `document` type. -/
def client_sendMedia (opts : MediaMessageOptions) (w : World) :
    Except String (MediaPayload × String) × List NetReq :=
  let formattedNumber := formatPhoneNumber opts.«to»
  let mediaType := opts.type.toLower
  let upload : Except (String × List NetReq) (Option String × List NetReq) :=
    if strTruthy opts.filePath then
      match client_uploadMedia (opts.filePath.getD "") w with
      | (.error e, reqs) => .error (e, reqs)
      | (.ok i, reqs) => .ok (some i, reqs)
    else .ok (none, [])
  match upload with
  | .error (e, reqs) => (.error e, reqs)
  | .ok (mediaId, reqs) =>
    let mObj : Except String MediaObject :=
      if strTruthy mediaId then
        Except.ok { id := mediaId }
      else if strTruthy opts.url then
        Except.ok { link := opts.url }
      else
        Except.error "Either filePath or url must be provided"
    match mObj with
    | .error e => (.error e, reqs)
    | .ok m0 =>
      let payload : MediaPayload :=
        { messaging_product := "whatsapp", recipient_type := "individual",
          «to» := formattedNumber, type := mediaType,
          media := mergeCaptionFilename m0 opts mediaType }
      (.ok (payload, extractMessageId w.messagesResp), reqs ++ [.postMessages])

/-! ## Contact lookup and the contact cache -/

/-- The placeholder contact `getContactInfo` synthesizes
(src/client.ts lines 440–445). -/
def placeholderContact (pn : String) : WhatsAppContact :=
  { id := formatPhoneNumber pn, name := none, isBusiness := none,
    profilePictureUrl := none }

/-- The contact cache after a miss: the placeholder stored under the key
`contact_<formatted>` with the current timestamp
(src/client.ts lines 448–451). -/
def contactCacheAfterMiss (st : ClientState) (pn : String) (now : Int) :
    List (String × ContactEntry) :=
  mapSet st.contactCache ("contact_" ++ formatPhoneNumber pn)
    { data := placeholderContact pn, timestamp := now }

/-- `getContactInfo` (src/client.ts lines 428–454): consult the contact
cache under `contact_<formatted>`; a hit younger than the contact TTL
(`now − timestamp < ttl·1000`) returns the cached data unchanged; otherwise
a placeholder contact is synthesized, stored with the current timestamp,
and returned. -/
def client_getContactInfo (st : ClientState) (phoneNumber : String) (now : Int) :
    WhatsAppContact × ClientState :=
  match mapLookup st.contactCache ("contact_" ++ formatPhoneNumber phoneNumber) with
  | some cached =>
    if now - cached.timestamp < (st.config.cacheContactSeconds : Int) * 1000 then
      (cached.data, st)
    else
      (placeholderContact phoneNumber,
       { st with contactCache := contactCacheAfterMiss st phoneNumber now })
  | none =>
    (placeholderContact phoneNumber,
     { st with contactCache := contactCacheAfterMiss st phoneNumber now })

/-! ## Error handling (src/client.ts handleApiError) -/

/-- The structured vendor error body `response.data.error`
(src/client.ts line 487).  The numeric fields are modelled as the strings
they interpolate to. -/
structure VendorErrorBody where
  code : Option String := none
  message : Option String := none
  error_subcode : Option String := none
  error_user_title : Option String := none
  error_user_msg : Option String := none
  deriving DecidableEq, Repr

/-- The error value entering `handleApiError`: an axios error carrying an
HTTP response (status plus optional structured vendor body), an axios error
without a response, or any other error. -/
inductive ApiError where
  | axiosWithResponse (status : Nat) (errorBody : Option VendorErrorBody)
  | axiosNoResponse (tag : String)
  | other (tag : String)
  deriving DecidableEq, Repr

/-- What `handleApiError` throws. -/
inductive ThrownError where
  | composed (msg : String)
  | original (e : ApiError)
  deriving DecidableEq, Repr

/-- `${x || ''}` on an optional string. -/
def optStr (o : Option String) : String := o.getD ""

/-- The ` (subcode: …)` fragment (src/client.ts lines 491–493). -/
def subcodePart (o : Option String) : String :=
  if strTruthy o then " (subcode: " ++ optStr o ++ ")" else ""

/-- The user-facing ` - title: msg` fragment (src/client.ts lines 495–497). -/
def userPart (title msg : Option String) : String :=
  if strTruthy title || strTruthy msg then
    " - " ++ optStr title ++ ": " ++ optStr msg
  else ""

/-- The vendor enrichment of the composed message
(src/client.ts lines 486–498, written as one concatenation: the imperative
`errorMsg +=` steps append exactly these fragments in this order). -/
def composeVendorMsg (base : String) (body : VendorErrorBody) : String :=
  base ++ " - " ++ optStr body.code ++ ": " ++ optStr body.message
    ++ subcodePart body.error_subcode
    ++ userPart body.error_user_title body.error_user_msg

/-- `handleApiError` (src/client.ts lines 476–505): an axios error carrying
a response produces a composed `Error`; anything else is rethrown
unchanged. -/
def handleApiError (message : String) (error : ApiError) : ThrownError :=
  match error with
  | .axiosWithResponse status responseBody =>
    let errorMsg := message ++ ": HTTP " ++ Nat.repr status
    match responseBody with
    | some body => .composed (composeVendorMsg errorMsg body)
    | none => .composed errorMsg
  | e => .original e

/-- Whether the failure carries a structured vendor error body
(`error.response.data.error` present). -/
def hasVendorBody : ApiError → Bool
  | .axiosWithResponse _ (some _) => true
  | _ => false

/-- Whether the failure is an axios error carrying an HTTP response. -/
def isAxiosWithResponse : ApiError → Bool
  | .axiosWithResponse _ _ => true
  | _ => false

/-! ## Client operations as state transformers (for the cache frame claims)

Every client method of src/client.ts other than `getContactInfo` reads and
writes neither `this.messageCache` nor `this.contactCache` (the caches are
mentioned nowhere in their bodies), so as state transformers they are the
identity on the `ClientState`. -/

/-- One invocation of a client method, with its arguments. -/
inductive ClientOp where
  | sendMessage («to» message : String)
  | sendTemplateMessage (opts : Params)
  | sendMedia (opts : MediaMessageOptions)
  | sendInteractiveMessage (opts : Params)
  | sendLocation (opts : Params)
  | markMessageAsRead (messageId : String)
  | getBusinessProfile
  | updateBusinessProfile (profileData : Params)
  | uploadMedia (filePath : String)
  | getMediaUrl (mediaId : String)
  | getContactInfo (phoneNumber : String)
  deriving DecidableEq, Repr

/-- The `ClientState` after running one client method (src/client.ts):
only `getContactInfo` (lines 428–454) touches a cache. -/
def clientOpState (st : ClientState) (op : ClientOp) (w : World) : ClientState :=
  match op with
  | .sendMessage _ _ => st
  | .sendTemplateMessage _ => st
  | .sendMedia _ => st
  | .sendInteractiveMessage _ => st
  | .sendLocation _ => st
  | .markMessageAsRead _ => st
  | .getBusinessProfile => st
  | .updateBusinessProfile _ => st
  | .uploadMedia _ => st
  | .getMediaUrl _ => st
  | .getContactInfo phoneNumber => (client_getContactInfo st phoneNumber w.now).2

/-- Run a sequence of client operations. -/
def runClientOps (st : ClientState) : List (ClientOp × World) → ClientState
  | [] => st
  | (op, w) :: rest => runClientOps (clientOpState st op w) rest

/-! ## Plugin adapter (src/unnamed/part_001) -/

/-- A tool manifest as returned by `getChatManifests`: name and list of
`required` parameter names (the fields the claims are about). -/
structure ManifestModel where
  name : String
  description : String
  required : List String
  deriving DecidableEq, Repr

/-- `getChatManifests` (part_001 lines 194–408). -/
def getChatManifestsModel : List ManifestModel :=
  [ { name := "whatsapp_send_message",
      description := "Send a WhatsApp text message to a contact",
      required := ["to", "message"] },
    { name := "whatsapp_send_template",
      description := "Send a template message to a contact",
      required := ["to", "templateName", "language"] },
    { name := "whatsapp_send_media",
      description := "Send a media message (image, document, etc.) to a contact",
      required := ["to", "type"] },
    { name := "whatsapp_send_interactive",
      description := "Send an interactive message with buttons or lists",
      required := ["to", "type", "body", "action"] },
    { name := "whatsapp_send_location",
      description := "Send a location message",
      required := ["to", "latitude", "longitude"] },
    { name := "whatsapp_mark_as_read",
      description := "Mark a message as read",
      required := ["messageId"] },
    { name := "whatsapp_get_contact_info",
      description := "Get basic information about a contact",
      required := ["phoneNumber"] },
    { name := "whatsapp_get_business_profile",
      description := "Get information about your WhatsApp Business profile",
      required := [] },
    { name := "whatsapp_update_business_profile",
      description := "Update your WhatsApp Business profile information",
      required := [] } ]

/-- An entry of the plugin's tool map: the descriptor part of an Astreus
`Plugin` object (its `execute` closure dispatches by name and is modelled
by `toolDispatch`). -/
structure Tool where
  name : String
  description : String
  deriving DecidableEq, Repr

/-- The Astreus `Plugin` object built for a manifest (part_001 lines 90–155,
descriptor part). -/
def toolOfManifest (m : ManifestModel) : Tool :=
  { name := m.name, description := m.description }

/-- The state of a `WhatsAppPlugin` instance: its stored configuration, the
optional client (`null` until `init()`), the tool map `this.tools`, and the
exposed list `this.config.tools`. -/
structure PluginState where
  whatsAppConfig : WhatsAppConfig
  client : Option ClientState
  tools : List (String × Tool)
  configTools : List Tool
  deriving DecidableEq, Repr

/-- `initializeTools` (part_001 lines 86–163): set each manifest's tool into
the existing map, then replace `config.tools` with the map's values. -/
def initializeToolsModel (tools : List (String × Tool)) : List (String × Tool) × List Tool :=
  let tools2 := getChatManifestsModel.foldl
    (fun m mf => mapSet m mf.name (toolOfManifest mf)) tools
  (tools2, mapValues tools2)

/-- The `WhatsAppConfig` the plugin constructor builds from the environment
when no explicit config is given (part_001 lines 30–35). -/
def envConfig (env : EnvVars) : WhatsAppConfig :=
  { apiVersion := env.WHATSAPP_API_VERSION,
    apiToken := env.WHATSAPP_API_TOKEN,
    phoneNumberId := env.WHATSAPP_PHONE_NUMBER_ID,
    businessAccountId := env.WHATSAPP_BUSINESS_ACCOUNT_ID }

/-- The `WhatsAppPlugin` constructor (part_001 lines 29–47). -/
def pluginNew (config : Option WhatsAppConfig) (env : EnvVars) : PluginState :=
  let wcfg := config.getD (envConfig env)
  let ts := initializeToolsModel []
  { whatsAppConfig := wcfg, client := none, tools := ts.1, configTools := ts.2 }

/-- `init()` (part_001 lines 52–73): construct the client, check
`isConfigured`, rebuild the tools; any failure is wrapped with the fixed
prefix (`${error}` renders a thrown `Error` as `Error: <message>`). -/
def pluginInit (ps : PluginState) (env : EnvVars) : Except String PluginState :=
  match WhatsAppClient.mkClient (some ps.whatsAppConfig) env with
  | .error e => .error ("WhatsApp plugin initialization failed: Error: " ++ e)
  | .ok client =>
    if isConfigured client = false then
      .error ("WhatsApp plugin initialization failed: Error: WhatsApp client is not properly configured. Check your API token and phone number ID.")
    else
      let ts := initializeToolsModel ps.tools
      .ok { ps with client := some client, tools := ts.1, configTools := ts.2 }

/-- `getTool` (part_001 lines 422–424). -/
def getToolModel (ps : PluginState) (name : String) : Option Tool :=
  mapLookup ps.tools name

/-- `registerTool` (part_001 lines 429–431): only the map is updated. -/
def registerToolModel (ps : PluginState) (tool : Tool) : PluginState :=
  { ps with tools := mapSet ps.tools tool.name tool }

/-- `removeTool` (part_001 lines 436–440): delete from the map, refresh
`config.tools` from the map's values, return whether the key existed. -/
def removeToolModel (ps : PluginState) (name : String) : Bool × PluginState :=
  let result := (mapLookup ps.tools name).isSome
  let tools2 := mapErase ps.tools name
  (result, { ps with tools := tools2, configTools := mapValues tools2 })

/-- `hasTool` (part_001 lines 445–447). -/
def hasToolModel (ps : PluginState) (name : String) : Bool :=
  (mapLookup ps.tools name).isSome

/-- `getToolCount` (part_001 lines 452–454): `this.tools.size`. -/
def getToolCountModel (ps : PluginState) : Nat := ps.tools.length

/-- `executeTool` (part_001 lines 459–465): look the tool up by name, fail
with the not-found message, otherwise delegate to that tool's `execute`
(the returned `Tool` is the one whose closure runs). -/
def executeToolModel (ps : PluginState) (name : String) : Except String Tool :=
  match getToolModel ps name with
  | none => .error ("Tool " ++ name ++ " not found")
  | some tool => .ok tool

/-! ## The tool execute closure (part_001 lines 95–154 and 506–651) -/

/-- A call into a `WhatsAppClient` method made by a tool handler; an empty
call list means the API client was never invoked (hence no network
request). -/
inductive ClientCall where
  | sendMessage («to» message : String)
  | sendTemplate (params : Params)
  | sendMedia (params : Params)
  | sendInteractive (params : Params)
  | sendLocation (params : Params)
  | markRead (messageId : String)
  | getProfile
  | updateProfile (params : Params)
  | getContact (phoneNumber : String)
  deriving DecidableEq, Repr

/-- The value a tool handler resolves with: the `{success, …}` wrappers of
part_001 lines 506–651. -/
inductive ExecOut where
  | send (success : Bool) (messageId : String)
  | markRead (success : Bool)
  | contact (c : WhatsAppContact)
  | profile (v : JsValue)
  | updateProfile (success : Bool)
  deriving DecidableEq, Repr

/-- `params as MediaMessageOptions` at the handler/client boundary
(part_001 line 549): the string-typed fields the client reads. -/
def mediaOptionsOfParams (params : Params) : MediaMessageOptions :=
  { «to» := asStr (getF params "to"), type := asStr (getF params "type"),
    url := asStrOpt (getF params "url"), filePath := asStrOpt (getF params "filePath"),
    caption := asStrOpt (getF params "caption"), filename := asStrOpt (getF params "filename") }

/-- The `execute` closure built for a manifest (part_001 lines 95–154):
fail when the client is not initialized; strip the `whatsapp_` prefix;
dispatch to the handler (part_001 lines 506–651), which validates its
required parameters and then delegates to the client.  Returns the handler
outcome, the client calls made, and the client state after the call. -/
def toolDispatch (hasClient : Bool) (name : String) (params : Params)
    (st : ClientState) (w : World) :
    Except String ExecOut × List ClientCall × ClientState :=
  if hasClient = false then
    (.error "WhatsApp client not initialized. Call init() first.", [], st)
  else
    let methodName := removeFirstOccStr name "whatsapp_"
    if methodName = "send_message" then
      if truthy (getF params "to") = false ∨ truthy (getF params "message") = false then
        (.error "Missing required parameters: to, message", [], st)
      else
        let toArg := asStr (getF params "to")
        let msgArg := asStr (getF params "message")
        (.ok (.send true (client_sendMessage toArg msgArg w).2),
         [.sendMessage toArg msgArg], st)
    else if methodName = "send_template" then
      if truthy (getF params "to") = false ∨ truthy (getF params "templateName") = false
          ∨ truthy (getF params "language") = false then
        (.error "Missing required parameters: to, templateName, language", [], st)
      else
        (.ok (.send true (extractMessageId w.messagesResp)), [.sendTemplate params], st)
    else if methodName = "send_media" then
      if truthy (getF params "to") = false ∨ truthy (getF params "type") = false
          ∨ (truthy (getF params "url") = false ∧ truthy (getF params "filePath") = false) then
        (.error "Missing required parameters: to, type, (url or filePath)", [], st)
      else
        match client_sendMedia (mediaOptionsOfParams params) w with
        | (.error e, _) => (.error e, [.sendMedia params], st)
        | (.ok (_, msgId), _) => (.ok (.send true msgId), [.sendMedia params], st)
    else if methodName = "send_interactive" then
      if truthy (getF params "to") = false ∨ truthy (getF params "type") = false
          ∨ truthy (getF params "body") = false ∨ truthy (getF params "action") = false then
        (.error "Missing required parameters: to, type, body, action", [], st)
      else
        (.ok (.send true (extractMessageId w.messagesResp)), [.sendInteractive params], st)
    else if methodName = "send_location" then
      if truthy (getF params "to") = false ∨ getF params "latitude" = JsValue.vundefined
          ∨ getF params "longitude" = JsValue.vundefined then
        (.error "Missing required parameters: to, latitude, longitude", [], st)
      else
        (.ok (.send true (extractMessageId w.messagesResp)), [.sendLocation params], st)
    else if methodName = "mark_as_read" then
      if truthy (getF params "messageId") = false then
        (.error "Missing required parameter: messageId", [], st)
      else
        (.ok (.markRead true), [.markRead (asStr (getF params "messageId"))], st)
    else if methodName = "get_contact_info" then
      if truthy (getF params "phoneNumber") = false then
        (.error "Missing required parameter: phoneNumber", [], st)
      else
        let pn := asStr (getF params "phoneNumber")
        let r := client_getContactInfo st pn w.now
        (.ok (.contact r.1), [.getContact pn], r.2)
    else if methodName = "get_business_profile" then
      (.ok (.profile (w.profileResp.headD JsValue.vobj)), [.getProfile], st)
    else if methodName = "update_business_profile" then
      (.ok (.updateProfile true), [.updateProfile params], st)
    else
      (.error ("Unknown method: " ++ methodName), [], st)

/-! ## Shared lemmas about the map model -/

theorem mapLookup_mapSet_self {α : Type} (m : List (String × α)) (k : String) (v : α) :
    mapLookup (mapSet m k v) k = some v := by
  induction m with
  | nil => simp [mapSet, mapLookup]
  | cons hd tl ih =>
    obtain ⟨k', v'⟩ := hd
    by_cases h : k' = k
    · simp [mapSet, mapLookup, h]
    · simp [mapSet, mapLookup, h, ih]

theorem mapLookup_mapSet_ne {α : Type} (m : List (String × α)) (k k2 : String)
    (w : α) (h : k2 ≠ k) : mapLookup (mapSet m k w) k2 = mapLookup m k2 := by
  induction m with
  | nil =>
    have hne : ¬(k = k2) := fun hh => h hh.symm
    simp [mapSet, mapLookup, hne]
  | cons hd tl ih =>
    obtain ⟨k', v'⟩ := hd
    by_cases hk : k' = k
    · subst hk
      have hne : ¬(k' = k2) := fun hh => h hh.symm
      simp [mapSet, mapLookup, hne]
    · by_cases h2 : k' = k2
      · simp [mapSet, mapLookup, hk, h2, h]
      · simp [mapSet, mapLookup, hk, h2, ih]

theorem mapLookup_eq_none_of_not_mem {α : Type} (m : List (String × α)) (k : String)
    (h : k ∉ m.map Prod.fst) : mapLookup m k = none := by
  induction m with
  | nil => rfl
  | cons hd tl ih =>
    obtain ⟨k', v'⟩ := hd
    simp only [List.map_cons, List.mem_cons] at h
    push_neg at h
    have hne : ¬(k' = k) := fun hh => h.1 hh.symm
    simp [mapLookup, hne, ih h.2]

theorem mapErase_length {α : Type} (m : List (String × α)) (k : String) (v : α)
    (h : mapLookup m k = some v) : (mapErase m k).length + 1 = m.length := by
  induction m with
  | nil => simp [mapLookup] at h
  | cons hd tl ih =>
    obtain ⟨k', v'⟩ := hd
    by_cases hk : k' = k
    · simp [mapErase, hk]
    · simp [mapLookup, hk] at h
      simp [mapErase, hk, ih h]

theorem mapLookup_mapErase_self {α : Type} (m : List (String × α)) (k : String)
    (hnd : (m.map Prod.fst).Nodup) : mapLookup (mapErase m k) k = none := by
  induction m with
  | nil => rfl
  | cons hd tl ih =>
    obtain ⟨k', v'⟩ := hd
    simp only [List.map_cons, List.nodup_cons] at hnd
    by_cases hk : k' = k
    · subst hk
      simp only [mapErase, if_pos rfl]
      exact mapLookup_eq_none_of_not_mem tl k' hnd.1
    · simp [mapErase, hk, mapLookup, ih hnd.2]

/-! ## C2: phone-number normalization -/

/-- C2: for every input string, phone-number normalization returns the input
with its leading `'+'` removed when the input starts with `'+'`, and
otherwise returns the input with every non-digit character removed; in
particular `"+1234567890"` normalizes to `"1234567890"`,
`"1 (234) 567-890"` normalizes to `"1234567890"`, and normalization fixes
(hence is idempotent on) already-normalized, all-digit input. -/
theorem C2_formatPhoneNumber (s : String) :
    (∀ rest : List Char, s.data = '+' :: rest → (formatPhoneNumber s).data = rest) ∧
    (s.data.head? ≠ some '+' →
      (formatPhoneNumber s).data = s.data.filter (fun c => c.isDigit)) ∧
    formatPhoneNumber "+1234567890" = "1234567890" ∧
    formatPhoneNumber "1 (234) 567-890" = "1234567890" ∧
    (s.data.all (fun c => c.isDigit) → formatPhoneNumber s = s) := by
  obtain ⟨cs⟩ := s
  refine ⟨?_, ?_, by decide, by decide, ?_⟩
  · intro rest h
    simp only at h
    subst h
    rfl
  · intro h
    match cs with
    | [] => rfl
    | c :: rest =>
      simp only [List.head?] at h
      have hc : c ≠ '+' := fun hh => h (by rw [hh])
      show (formatDigits (c :: rest)) = _
      rw [formatDigits.eq_def]
      split
      · rename_i heq
        injection heq with h1 h2
        exact absurd h1 hc
      · rfl
  · intro h
    simp only [List.all_eq_true] at h
    have : formatDigits cs = cs := by
      match cs with
      | [] => rfl
      | c :: rest =>
        have hc : c ≠ '+' := by
          intro hh
          have := h c (List.mem_cons_self c rest)
          rw [hh] at this
          simp [Char.isDigit] at this
        rw [formatDigits.eq_def]
        split
        · rename_i heq
          injection heq with h1 h2
          exact absurd h1 hc
        · exact List.filter_eq_self.mpr fun a ha => by
            simpa using h a ha
    show String.mk (formatDigits cs) = String.mk cs
    rw [this]

/-- C2 witness: the theorem applied at concrete inputs, each hypothesis
discharged. -/
theorem C2_formatPhoneNumber_witness :
    (formatPhoneNumber "+49170").data = ['4', '9', '1', '7', '0'] ∧
    (formatPhoneNumber "1-2a3").data =
      "1-2a3".data.filter (fun c => c.isDigit) ∧
    formatPhoneNumber "1234567890" = "1234567890" :=
  ⟨(C2_formatPhoneNumber "+49170").1 ['4', '9', '1', '7', '0'] (by decide),
   (C2_formatPhoneNumber "1-2a3").2.1 (by decide),
   (C2_formatPhoneNumber "1234567890").2.2.2.2 (by decide)⟩

/-! ## C6: vendor error enrichment -/

/-- C6 counterexample: an axios failure carrying an HTTP response but no
structured vendor error body does NOT propagate unchanged — `handleApiError`
still throws a composed error, refuting the claim's "otherwise the original
transport error propagates to the caller unchanged". -/
theorem C6_counterexample :
    hasVendorBody (ApiError.axiosWithResponse 500 none) = false ∧
    handleApiError "Error sending message" (ApiError.axiosWithResponse 500 none) =
      ThrownError.composed "Error sending message: HTTP 500" ∧
    handleApiError "Error sending message" (ApiError.axiosWithResponse 500 none) ≠
      ThrownError.original (ApiError.axiosWithResponse 500 none) := by
  refine ⟨rfl, rfl, ?_⟩
  intro h
  exact ThrownError.noConfusion h

/-- C6 (amended): a failure carrying a structured vendor error body produces
a composed message containing the HTTP status code and the vendor error code
and message verbatim; a failure carrying an HTTP response without a
structured body produces the composed `prefix: HTTP status` message; only a
failure with no HTTP response at all propagates unchanged. -/
theorem C6_handleApiError (msgPre : String) (e : ApiError) :
    (∀ status body c m, e = ApiError.axiosWithResponse status (some body) →
      body.code = some c → body.message = some m →
      ∃ s, handleApiError msgPre e = ThrownError.composed s ∧
        strContains s (Nat.repr status) ∧ strContains s c ∧ strContains s m) ∧
    (∀ status, e = ApiError.axiosWithResponse status none →
      handleApiError msgPre e =
        ThrownError.composed (msgPre ++ ": HTTP " ++ Nat.repr status)) ∧
    (isAxiosWithResponse e = false → handleApiError msgPre e = ThrownError.original e) := by
  refine ⟨?_, ?_, ?_⟩
  · intro status body c m he hc hm
    subst he
    refine ⟨composeVendorMsg (msgPre ++ ": HTTP " ++ Nat.repr status) body, rfl, ?_, ?_, ?_⟩
    · exact ⟨msgPre ++ ": HTTP ",
        " - " ++ optStr body.code ++ ": " ++ optStr body.message
          ++ subcodePart body.error_subcode
          ++ userPart body.error_user_title body.error_user_msg,
        by simp [composeVendorMsg, String.append_assoc]⟩
    · refine ⟨msgPre ++ ": HTTP " ++ Nat.repr status ++ " - ",
        ": " ++ optStr body.message ++ subcodePart body.error_subcode
          ++ userPart body.error_user_title body.error_user_msg, ?_⟩
      simp [composeVendorMsg, hc, optStr, String.append_assoc]
    · refine ⟨msgPre ++ ": HTTP " ++ Nat.repr status ++ " - " ++ c ++ ": ",
        subcodePart body.error_subcode
          ++ userPart body.error_user_title body.error_user_msg, ?_⟩
      simp [composeVendorMsg, hc, hm, optStr, String.append_assoc]
  · intro status he
    subst he
    rfl
  · intro h
    match e, h with
    | .axiosNoResponse t, _ => rfl
    | .other t, _ => rfl

/-- C6 witness: the amended theorem applied at a concrete vendor error and at
a concrete transport error. -/
theorem C6_handleApiError_witness :
    (∃ s, handleApiError "Error sending message"
        (ApiError.axiosWithResponse 400
          (some { code := some "190", message := some "Invalid OAuth access token" })) =
        ThrownError.composed s ∧
      strContains s (Nat.repr 400) ∧ strContains s "190" ∧
      strContains s "Invalid OAuth access token") ∧
    handleApiError "Error sending message" (ApiError.other "ECONNRESET") =
      ThrownError.original (ApiError.other "ECONNRESET") :=
  ⟨(C6_handleApiError "Error sending message" _).1 400 _ "190"
      "Invalid OAuth access token" rfl rfl rfl,
   (C6_handleApiError "Error sending message" _).2.2 rfl⟩

/-! ## C7: credential validation at construction and init -/

theorem jsOrStr_none (b : Option String) : jsOrStr none b = b := rfl

theorem jsOrStr_self (a : Option String) : jsOrStr a a = a := by
  unfold jsOrStr
  split <;> rfl

theorem jsOrStr_absorb (a b : Option String) : jsOrStr a (jsOrStr a b) = jsOrStr a b := by
  unfold jsOrStr
  by_cases h : strTruthy a = true
  · simp [h]
  · simp [h]

/-- Resolving the config the plugin constructor stored gives the same result
as resolving the constructor's own input: the per-field environment fallback
of the client constructor absorbs the plugin's environment snapshot. -/
theorem resolveConfig_pluginNew (config : Option WhatsAppConfig) (env : EnvVars) :
    resolveConfig (some (config.getD (envConfig env))) env = resolveConfig config env := by
  cases config with
  | some c => rfl
  | none =>
    simp [resolveConfig, envConfig, cfgField, jsOrStr_self, jsOrStr_absorb, jsOrStr_none]

theorem mkClient_eq_of_resolve (c1 c2 : Option WhatsAppConfig) (env : EnvVars)
    (h : resolveConfig c1 env = resolveConfig c2 env) :
    WhatsAppClient.mkClient c1 env = WhatsAppClient.mkClient c2 env := by
  unfold WhatsAppClient.mkClient
  rw [h]

/-- C7: when the resolved access token or phone-number id is empty
(override, then environment), client construction fails, the plugin's
`init()` fails wrapped with the fixed prefix, the plugin's client stays
null, and every tool execution on an uninitialized plugin fails; conversely
when both are non-empty, construction succeeds (with empty caches) and
`init()` succeeds. -/
theorem C7_configValidation (config : Option WhatsAppConfig) (env : EnvVars) :
    ((strTruthy (resolveConfig config env).apiToken = false ∨
      strTruthy (resolveConfig config env).phoneNumberId = false) →
      (∃ e, WhatsAppClient.mkClient config env = Except.error e) ∧
      (∃ e, pluginInit (pluginNew config env) env =
        Except.error ("WhatsApp plugin initialization failed: Error: " ++ e)) ∧
      (pluginNew config env).client = none ∧
      (∀ name params st w, toolDispatch false name params st w =
        (Except.error "WhatsApp client not initialized. Call init() first.", [], st))) ∧
    ((strTruthy (resolveConfig config env).apiToken = true ∧
      strTruthy (resolveConfig config env).phoneNumberId = true) →
      WhatsAppClient.mkClient config env = Except.ok
        { config := resolveConfig config env, messageCache := [], contactCache := [] } ∧
      (∃ ps2, pluginInit (pluginNew config env) env = Except.ok ps2)) := by
  have hres : resolveConfig (some ((pluginNew config env).whatsAppConfig)) env
      = resolveConfig config env := resolveConfig_pluginNew config env
  constructor
  · intro h
    have hmk : ∃ e, WhatsAppClient.mkClient config env = Except.error e := by
      unfold WhatsAppClient.mkClient
      by_cases ht : strTruthy (resolveConfig config env).apiToken = false
      · exact ⟨"WhatsApp API token is required", by rw [if_pos ht]⟩
      · have hp : strTruthy (resolveConfig config env).phoneNumberId = false := by
          rcases h with h | h
          · exact absurd h ht
          · exact h
        exact ⟨"WhatsApp phone number ID is required", by rw [if_neg ht, if_pos hp]⟩
    obtain ⟨e, he⟩ := hmk
    have he2 : WhatsAppClient.mkClient (some ((pluginNew config env).whatsAppConfig)) env =
        Except.error e := by
      rw [mkClient_eq_of_resolve _ _ _ hres, he]
    refine ⟨⟨e, he⟩, ⟨e, ?_⟩, rfl, fun name params st w => rfl⟩
    unfold pluginInit
    rw [he2]
  · intro h
    have ht : ¬(strTruthy (resolveConfig config env).apiToken = false) := by simp [h.1]
    have hp : ¬(strTruthy (resolveConfig config env).phoneNumberId = false) := by simp [h.2]
    have hok : WhatsAppClient.mkClient config env = Except.ok
        { config := resolveConfig config env, messageCache := [], contactCache := [] } := by
      unfold WhatsAppClient.mkClient
      rw [if_neg ht, if_neg hp]
    refine ⟨hok, ?_⟩
    have hok2 : WhatsAppClient.mkClient (some ((pluginNew config env).whatsAppConfig)) env =
        Except.ok { config := resolveConfig config env, messageCache := [], contactCache := [] } := by
      rw [mkClient_eq_of_resolve _ _ _ hres, hok]
    have hic : ¬(isConfigured
        { config := resolveConfig config env, messageCache := [], contactCache := [] } = false) := by
      simp [isConfigured, h.1, h.2]
    refine ⟨{ pluginNew config env with
        client := some { config := resolveConfig config env, messageCache := [], contactCache := [] },
        tools := (initializeToolsModel (pluginNew config env).tools).1,
        configTools := (initializeToolsModel (pluginNew config env).tools).2 }, ?_⟩
    simp only [pluginInit, hok2]
    rw [if_neg hic]

/-- A concrete empty environment, used by witnesses. -/
def env0 : EnvVars := { }

/-- A concrete configuration carrying both credentials, used by witnesses. -/
def cfgCred : WhatsAppConfig := { apiToken := some "t", phoneNumberId := some "p" }

/-- C7 witness: a configuration with no token fails construction and init;
a configuration with both credentials succeeds. -/
theorem C7_configValidation_witness :
    (∃ e, WhatsAppClient.mkClient none env0 = Except.error e) ∧
    (∃ e, pluginInit (pluginNew none env0) env0 =
      Except.error ("WhatsApp plugin initialization failed: Error: " ++ e)) ∧
    WhatsAppClient.mkClient (some cfgCred) env0 =
      Except.ok { config := resolveConfig (some cfgCred) env0, messageCache := [],
                  contactCache := [] } ∧
    (∃ ps2, pluginInit (pluginNew (some cfgCred) env0) env0 = Except.ok ps2) :=
  ⟨((C7_configValidation none env0).1 (by decide)).1,
   ((C7_configValidation none env0).1 (by decide)).2.1,
   ((C7_configValidation (some cfgCred) env0).2 (by decide)).1,
   ((C7_configValidation (some cfgCred) env0).2 (by decide)).2⟩

/-! ## C4: message-id extraction and the adapter wrapper -/

/-- The `whatsapp_` prefix stripping of the dispatcher at each catalog
name. -/
theorem methodName_send_message :
    removeFirstOccStr "whatsapp_send_message" "whatsapp_" = "send_message" := by decide

theorem methodName_send_template :
    removeFirstOccStr "whatsapp_send_template" "whatsapp_" = "send_template" := by decide

theorem methodName_send_media :
    removeFirstOccStr "whatsapp_send_media" "whatsapp_" = "send_media" := by decide

theorem methodName_send_interactive :
    removeFirstOccStr "whatsapp_send_interactive" "whatsapp_" = "send_interactive" := by decide

theorem methodName_send_location :
    removeFirstOccStr "whatsapp_send_location" "whatsapp_" = "send_location" := by decide

theorem methodName_mark_as_read :
    removeFirstOccStr "whatsapp_mark_as_read" "whatsapp_" = "mark_as_read" := by decide

theorem methodName_get_contact_info :
    removeFirstOccStr "whatsapp_get_contact_info" "whatsapp_" = "get_contact_info" := by decide

theorem methodName_get_business_profile :
    removeFirstOccStr "whatsapp_get_business_profile" "whatsapp_" = "get_business_profile" := by
  decide

theorem methodName_update_business_profile :
    removeFirstOccStr "whatsapp_update_business_profile" "whatsapp_" =
      "update_business_profile" := by decide

/-- C4: a successful send returns the id of the first entry of the
response's message list when that list is non-empty and the empty string
when the response carries no messages, and the adapter wraps the result as
`{success: true, messageId}`. -/
theorem C4_sendMessageResult (params : Params) (st : ClientState) (w : World)
    (toArg msgArg : String)
    (hto : getF params "to" = JsValue.vstr toArg) (hto2 : toArg ≠ "")
    (hmsg : getF params "message" = JsValue.vstr msgArg) (hmsg2 : msgArg ≠ "") :
    (∀ i rest d, w.messagesResp = some d → d.messages = some ({ id := i } :: rest) →
      (client_sendMessage toArg msgArg w).2 = i ∧
      (toolDispatch true "whatsapp_send_message" params st w).1 =
        Except.ok (ExecOut.send true i)) ∧
    ((w.messagesResp = none ∨ ∃ d, w.messagesResp = some d ∧
        (d.messages = none ∨ d.messages = some [])) →
      (client_sendMessage toArg msgArg w).2 = "" ∧
      (toolDispatch true "whatsapp_send_message" params st w).1 =
        Except.ok (ExecOut.send true "")) := by
  have hdisp : (toolDispatch true "whatsapp_send_message" params st w).1 =
      Except.ok (ExecOut.send true (extractMessageId w.messagesResp)) := by
    simp only [toolDispatch, methodName_send_message]
    simp [hto, hmsg, truthy, hto2, hmsg2, client_sendMessage]
  constructor
  · intro i rest d hw hm
    have : extractMessageId w.messagesResp = i := by
      simp [extractMessageId, hw, hm]
    exact ⟨by simp [client_sendMessage, this], by rw [hdisp, this]⟩
  · intro h
    have : extractMessageId w.messagesResp = "" := by
      rcases h with h | ⟨d, hd, h⟩
      · simp [extractMessageId, h]
      · rcases h with h | h <;> simp [extractMessageId, hd, h]
    exact ⟨by simp [client_sendMessage, this], by rw [hdisp, this]⟩

/-- A concrete client state, used by witnesses. -/
def stExample : ClientState :=
  { config := resolveConfig (some cfgCred) env0, messageCache := [], contactCache := [] }

/-- A concrete world whose send response carries one message id. -/
def wMsg : World :=
  { messagesResp := some { messages := some [{ id := "wamid.1" }] },
    uploadResp := none, profileResp := [], fileExists := fun _ => false, now := 0 }

/-- A concrete world whose send response carries no messages. -/
def wEmpty : World :=
  { messagesResp := some { messages := some [] },
    uploadResp := none, profileResp := [], fileExists := fun _ => false, now := 0 }

/-- C4 witness: the theorem applied at a concrete parameter record, a
response with one message id, and a response with none. -/
theorem C4_sendMessageResult_witness :
    ((client_sendMessage "+1" "hi" wMsg).2 = "wamid.1" ∧
      (toolDispatch true "whatsapp_send_message"
        [("to", JsValue.vstr "+1"), ("message", JsValue.vstr "hi")] stExample wMsg).1 =
        Except.ok (ExecOut.send true "wamid.1")) ∧
    ((client_sendMessage "+1" "hi" wEmpty).2 = "" ∧
      (toolDispatch true "whatsapp_send_message"
        [("to", JsValue.vstr "+1"), ("message", JsValue.vstr "hi")] stExample wEmpty).1 =
        Except.ok (ExecOut.send true "")) :=
  ⟨(C4_sendMessageResult [("to", JsValue.vstr "+1"), ("message", JsValue.vstr "hi")]
      stExample wMsg "+1" "hi" rfl (by decide) rfl (by decide)).1
      "wamid.1" [] _ rfl rfl,
   (C4_sendMessageResult [("to", JsValue.vstr "+1"), ("message", JsValue.vstr "hi")]
      stExample wEmpty "+1" "hi" rfl (by decide) rfl (by decide)).2
      (Or.inr ⟨_, rfl, Or.inr rfl⟩)⟩


/-! ## C3: sendMedia media-source selection -/

theorem strTruthy_isSome {o : Option String} (h : strTruthy o = true) : o.isSome = true := by
  cases o with
  | none => simp [strTruthy] at h
  | some s => rfl

theorem strTruthy_none : strTruthy none = false := rfl

theorem mergeCaptionFilename_id (m0 : MediaObject) (opts : MediaMessageOptions)
    (t : String) : (mergeCaptionFilename m0 opts t).id = m0.id := by
  unfold mergeCaptionFilename
  split <;> split <;> rfl

theorem mergeCaptionFilename_link (m0 : MediaObject) (opts : MediaMessageOptions)
    (t : String) : (mergeCaptionFilename m0 opts t).link = m0.link := by
  unfold mergeCaptionFilename
  split <;> split <;> rfl

/-- C3: `sendMedia` fails with a descriptive error and no network request
when neither `filePath` nor `url` is given; when a `filePath` is given and
the upload yields a media id, that id is embedded as `{id: …}` (and no
`link`) and exactly the upload and send requests are issued; and on every
success exactly one of the upload-derived id or the url populates the media
sub-object. -/
theorem C3_sendMedia (opts : MediaMessageOptions) (w : World) :
    (strTruthy opts.filePath = false → strTruthy opts.url = false →
      client_sendMedia opts w =
        (Except.error "Either filePath or url must be provided", [])) ∧
    (∀ fp i, opts.filePath = some fp → fp ≠ "" → w.fileExists fp = true →
      w.uploadResp = some { id := some i } → i ≠ "" →
      client_sendMedia opts w =
        (Except.ok
          ({ messaging_product := "whatsapp", recipient_type := "individual",
             «to» := formatPhoneNumber opts.«to», type := opts.type.toLower,
             media := mergeCaptionFilename { id := some i } opts opts.type.toLower },
           extractMessageId w.messagesResp),
         [NetReq.uploadMedia fp, NetReq.postMessages]) ∧
      (mergeCaptionFilename { id := some i } opts opts.type.toLower).id = some i ∧
      (mergeCaptionFilename { id := some i } opts opts.type.toLower).link = none) ∧
    (∀ payload msgId reqs, client_sendMedia opts w = (Except.ok (payload, msgId), reqs) →
      (payload.media.id.isSome = true ∧ payload.media.link = none) ∨
      (payload.media.id = none ∧ payload.media.link.isSome = true)) := by
  refine ⟨?_, ?_, ?_⟩
  · intro hfp hurl
    simp [client_sendMedia, hfp, hurl, strTruthy_none]
  · intro fp i hfp hfp2 hex hup hi
    have hft : strTruthy opts.filePath = true := by
      rw [hfp]; simp [strTruthy, hfp2]
    have hit : strTruthy (some i) = true := by simp [strTruthy, hi]
    refine ⟨?_, ?_, ?_⟩
    · simp only [client_sendMedia, client_uploadMedia, hft, hfp, if_true]
      have hfpt : strTruthy (some fp) = true := by simp [strTruthy, hfp2]
      simp [hex, hup, hit, hfpt]
    · exact (mergeCaptionFilename_id _ _ _).trans rfl
    · exact (mergeCaptionFilename_link _ _ _).trans rfl
  · intro payload msgId reqs h
    have hbool : ∀ b : Bool, ¬(b = true) → b = false := by decide
    by_cases hf : strTruthy opts.filePath = true
    · rcases hcu : client_uploadMedia (opts.filePath.getD "") w with ⟨r, reqs0⟩
      rcases r with e1 | i1
      · have hred : client_sendMedia opts w = (Except.error e1, reqs0) := by
          simp only [client_sendMedia, hf, if_true, hcu]
        rw [hred] at h
        simp at h
      · by_cases hm : strTruthy (some i1) = true
        · have hred : client_sendMedia opts w =
              (Except.ok
                ({ messaging_product := "whatsapp", recipient_type := "individual",
                   «to» := formatPhoneNumber opts.«to», type := opts.type.toLower,
                   media := mergeCaptionFilename { id := some i1 } opts opts.type.toLower },
                 extractMessageId w.messagesResp),
               reqs0 ++ [NetReq.postMessages]) := by
            simp only [client_sendMedia, hf, if_true, hcu, hm]
          rw [hred] at h
          simp only [Prod.mk.injEq, Except.ok.injEq] at h
          obtain ⟨⟨hP, -⟩, -⟩ := h
          subst hP
          left
          exact ⟨by rw [mergeCaptionFilename_id]; exact strTruthy_isSome hm,
                 by rw [mergeCaptionFilename_link]⟩
        · by_cases hu : strTruthy opts.url = true
          · have hred : client_sendMedia opts w =
                (Except.ok
                  ({ messaging_product := "whatsapp", recipient_type := "individual",
                     «to» := formatPhoneNumber opts.«to», type := opts.type.toLower,
                     media := mergeCaptionFilename { link := opts.url } opts opts.type.toLower },
                   extractMessageId w.messagesResp),
                 reqs0 ++ [NetReq.postMessages]) := by
              simp only [client_sendMedia, hf, if_true, hcu, hbool _ hm,
                Bool.false_eq_true, if_false, hu]
            rw [hred] at h
            simp only [Prod.mk.injEq, Except.ok.injEq] at h
            obtain ⟨⟨hP, -⟩, -⟩ := h
            subst hP
            right
            refine ⟨by rw [mergeCaptionFilename_id], ?_⟩
            rw [mergeCaptionFilename_link]
            exact strTruthy_isSome hu
          · have hred : client_sendMedia opts w =
                (Except.error "Either filePath or url must be provided", reqs0) := by
              simp only [client_sendMedia, hf, if_true, hcu, hbool _ hm, hbool _ hu,
                Bool.false_eq_true, if_false]
            rw [hred] at h
            simp at h
    · by_cases hu : strTruthy opts.url = true
      · have hred : client_sendMedia opts w =
            (Except.ok
              ({ messaging_product := "whatsapp", recipient_type := "individual",
                 «to» := formatPhoneNumber opts.«to», type := opts.type.toLower,
                 media := mergeCaptionFilename { link := opts.url } opts opts.type.toLower },
               extractMessageId w.messagesResp),
             [NetReq.postMessages]) := by
          simp only [client_sendMedia, hbool _ hf, Bool.false_eq_true, if_false,
            strTruthy_none, hu]
          simp
        rw [hred] at h
        simp only [Prod.mk.injEq, Except.ok.injEq] at h
        obtain ⟨⟨hP, -⟩, -⟩ := h
        subst hP
        right
        refine ⟨by rw [mergeCaptionFilename_id], ?_⟩
        rw [mergeCaptionFilename_link]
        exact strTruthy_isSome hu
      · have hred : client_sendMedia opts w =
            (Except.error "Either filePath or url must be provided", []) := by
          simp only [client_sendMedia, hbool _ hf, hbool _ hu, Bool.false_eq_true,
            if_false, strTruthy_none]
        rw [hred] at h
        simp at h

/-- A concrete media-send request with neither url nor file path. -/
def optsNoSource : MediaMessageOptions := { «to» := "+1", type := "image" }

/-- A concrete media-send request with a file path. -/
def optsFile : MediaMessageOptions :=
  { «to» := "+1", type := "image", filePath := some "pic.png" }

/-- A concrete world where the file exists and the upload yields an id. -/
def wUpload : World :=
  { messagesResp := some { messages := some [{ id := "wamid.2" }] },
    uploadResp := some { id := some "media.77" }, profileResp := [],
    fileExists := fun _ => true, now := 0 }

/-- C3 witness: the theorem applied at a sourceless request and at a
file-backed request. -/
theorem C3_sendMedia_witness :
    client_sendMedia optsNoSource wMsg =
      (Except.error "Either filePath or url must be provided", []) ∧
    (client_sendMedia optsFile wUpload =
      (Except.ok
        ({ messaging_product := "whatsapp", recipient_type := "individual",
           «to» := formatPhoneNumber optsFile.«to», type := optsFile.type.toLower,
           media := mergeCaptionFilename { id := some "media.77" } optsFile
             optsFile.type.toLower },
         extractMessageId wUpload.messagesResp),
       [NetReq.uploadMedia "pic.png", NetReq.postMessages]) ∧
      (mergeCaptionFilename { id := some "media.77" } optsFile
        optsFile.type.toLower).id = some "media.77" ∧
      (mergeCaptionFilename { id := some "media.77" } optsFile
        optsFile.type.toLower).link = none) :=
  ⟨(C3_sendMedia optsNoSource wMsg).1 rfl rfl,
   (C3_sendMedia optsFile wUpload).2.1 "pic.png" "media.77" rfl (by decide) rfl rfl
     (by decide)⟩

/-! ## C5: the contact cache -/

/-- A contact record with a name, used to exhibit the TTL boundary
divergence (the claim's staleness rule would return this entry). -/
def aliceContact : WhatsAppContact := { id := "123", name := some "Alice" }

/-- A client state whose contact cache holds an entry written at time 0,
with a contact TTL of 1 second. -/
def stC5 : ClientState :=
  { config := resolveConfig
      (some { apiToken := some "t", phoneNumberId := some "p",
              cacheContactSeconds := some 1 }) env0,
    messageCache := [],
    contactCache := [("contact_123", { data := aliceContact, timestamp := 0 })] }

/-- C5 counterexample: at the exact TTL boundary (`now − timestamp =
ttl·1000`, so NOT `> ttl`), the claim says the entry is fresh — the call
should return the cached data and leave the cache alone — but the code
treats it as stale: it returns a fresh placeholder (not the cached data)
and overwrites the entry's timestamp. -/
theorem C5_counterexample :
    ¬((1000 : Int) - 0 > 1 * 1000) ∧
    (client_getContactInfo stC5 "+123" 1000).1 ≠ aliceContact ∧
    (client_getContactInfo stC5 "+123" 1000).2 ≠ stC5 := by decide

/-- C5 (amended): `getContactInfo` consults the cache under the normalized
number; an entry is treated as stale exactly when `now − timestamp ≥
ttl·1000` (not `>` as claimed); a fresh hit returns the cached data and
leaves the state unchanged; a miss or stale entry re-synthesizes a
placeholder contact (only the normalized id, other fields absent), stores
it with the current timestamp, and returns it; cache keys are never
removed; and a second call within the TTL after a miss returns the same
synthesized data with no further state change. -/
theorem C5_getContactInfo (st : ClientState) (pn : String) (now : Int) :
    (∀ e, mapLookup st.contactCache ("contact_" ++ formatPhoneNumber pn) = some e →
      now - e.timestamp < (st.config.cacheContactSeconds : Int) * 1000 →
      client_getContactInfo st pn now = (e.data, st)) ∧
    ((mapLookup st.contactCache ("contact_" ++ formatPhoneNumber pn) = none ∨
      (∃ e, mapLookup st.contactCache ("contact_" ++ formatPhoneNumber pn) = some e ∧
        (st.config.cacheContactSeconds : Int) * 1000 ≤ now - e.timestamp)) →
      client_getContactInfo st pn now = (placeholderContact pn,
        { st with contactCache := contactCacheAfterMiss st pn now })) ∧
    (∀ k, (mapLookup st.contactCache k).isSome = true →
      (mapLookup (client_getContactInfo st pn now).2.contactCache k).isSome = true) ∧
    (mapLookup st.contactCache ("contact_" ++ formatPhoneNumber pn) = none →
      ∀ now2, now2 - now < (st.config.cacheContactSeconds : Int) * 1000 →
      client_getContactInfo (client_getContactInfo st pn now).2 pn now2 =
        ((client_getContactInfo st pn now).1, (client_getContactInfo st pn now).2)) := by
  have hfresh : ∀ e, mapLookup st.contactCache ("contact_" ++ formatPhoneNumber pn) = some e →
      now - e.timestamp < (st.config.cacheContactSeconds : Int) * 1000 →
      client_getContactInfo st pn now = (e.data, st) := by
    intro e he hlt
    simp only [client_getContactInfo, he, hlt, if_true]
  have hmiss : (mapLookup st.contactCache ("contact_" ++ formatPhoneNumber pn) = none ∨
      (∃ e, mapLookup st.contactCache ("contact_" ++ formatPhoneNumber pn) = some e ∧
        (st.config.cacheContactSeconds : Int) * 1000 ≤ now - e.timestamp)) →
      client_getContactInfo st pn now = (placeholderContact pn,
        { st with contactCache := contactCacheAfterMiss st pn now }) := by
    intro h
    rcases h with h | ⟨e, he, hge⟩
    · simp only [client_getContactInfo, h, placeholderContact, contactCacheAfterMiss]
    · have hnl : ¬(now - e.timestamp < (st.config.cacheContactSeconds : Int) * 1000) :=
        not_lt.mpr hge
      simp only [client_getContactInfo, he, hnl, if_false, placeholderContact,
        contactCacheAfterMiss]
  refine ⟨hfresh, hmiss, ?_, ?_⟩
  · intro k hk
    have hafter : (mapLookup (contactCacheAfterMiss st pn now) k).isSome = true := by
      by_cases hkk : k = "contact_" ++ formatPhoneNumber pn
      · subst hkk
        unfold contactCacheAfterMiss
        rw [mapLookup_mapSet_self]
        rfl
      · unfold contactCacheAfterMiss
        rw [mapLookup_mapSet_ne _ _ _ _ hkk]
        exact hk
    rcases hcl : mapLookup st.contactCache ("contact_" ++ formatPhoneNumber pn) with _ | e
    · rw [hmiss (Or.inl hcl)]
      exact hafter
    · by_cases hlt : now - e.timestamp < (st.config.cacheContactSeconds : Int) * 1000
      · rw [hfresh e hcl hlt]
        exact hk
      · rw [hmiss (Or.inr ⟨e, hcl, not_lt.mp hlt⟩)]
        exact hafter
  · intro hnone now2 hlt
    have h1 := hmiss (Or.inl hnone)
    rw [h1]
    have h2 : mapLookup (contactCacheAfterMiss st pn now)
        ("contact_" ++ formatPhoneNumber pn) =
        some { data := placeholderContact pn, timestamp := now } :=
      mapLookup_mapSet_self ..
    simp only [client_getContactInfo, h2, hlt, if_true]

/-- C5 witness: the amended theorem applied at an empty cache — a first call
misses and stores the placeholder, a second call 500 ms later hits and
changes nothing. -/
theorem C5_getContactInfo_witness :
    client_getContactInfo stExample "+123" 0 = (placeholderContact "+123",
      { stExample with contactCache := contactCacheAfterMiss stExample "+123" 0 }) ∧
    client_getContactInfo (client_getContactInfo stExample "+123" 0).2 "+123" 500 =
      ((client_getContactInfo stExample "+123" 0).1,
       (client_getContactInfo stExample "+123" 0).2) :=
  ⟨(C5_getContactInfo stExample "+123" 0).2.1 (Or.inl rfl),
   (C5_getContactInfo stExample "+123" 0).2.2.2 rfl 500 (by decide)⟩

/-! ## C9: the message cache is dead state -/

theorem getContactInfo_state_frame (st : ClientState) (pn : String) (now : Int) :
    (client_getContactInfo st pn now).2.messageCache = st.messageCache ∧
    (client_getContactInfo st pn now).2.config = st.config := by
  unfold client_getContactInfo
  split
  · split
    · exact ⟨rfl, rfl⟩
    · exact ⟨rfl, rfl⟩
  · exact ⟨rfl, rfl⟩

theorem clientOpState_messageCache (st : ClientState) (op : ClientOp) (w : World) :
    (clientOpState st op w).messageCache = st.messageCache := by
  cases op
  case getContactInfo pn => exact (getContactInfo_state_frame st pn w.now).1
  all_goals rfl

theorem runClientOps_messageCache (ops : List (ClientOp × World)) (st : ClientState) :
    (runClientOps st ops).messageCache = st.messageCache := by
  induction ops generalizing st with
  | nil => rfl
  | cons hd tl ih =>
    obtain ⟨op, w⟩ := hd
    rw [runClientOps, ih, clientOpState_messageCache]

/-- C9: `messageCache` is dead state — no client operation writes it (or the
configuration), every operation other than `getContactInfo` leaves the whole
state unchanged, and from a freshly constructed client every operation
sequence keeps `messageCache` empty. -/
theorem C9_messageCacheDead (st : ClientState) (op : ClientOp) (w : World) :
    (clientOpState st op w).messageCache = st.messageCache ∧
    (clientOpState st op w).config = st.config ∧
    ((∀ pn, op ≠ ClientOp.getContactInfo pn) → clientOpState st op w = st) ∧
    (∀ (cfg : Option WhatsAppConfig) (env : EnvVars) (st0 : ClientState),
      WhatsAppClient.mkClient cfg env = Except.ok st0 →
      ∀ ops : List (ClientOp × World), (runClientOps st0 ops).messageCache = []) := by
  refine ⟨clientOpState_messageCache st op w, ?_, ?_, ?_⟩
  · cases op
    case getContactInfo pn => exact (getContactInfo_state_frame st pn w.now).2
    all_goals rfl
  · intro h
    cases op
    case getContactInfo pn => exact absurd rfl (h pn)
    all_goals rfl
  · intro cfg env st0 hmk ops
    have hempty : st0.messageCache = [] := by
      unfold WhatsAppClient.mkClient at hmk
      split at hmk
      · exact absurd hmk (by simp)
      · split at hmk
        · exact absurd hmk (by simp)
        · injection hmk with h0
          rw [← h0]
    rw [runClientOps_messageCache, hempty]

/-- C9 witness: concrete operations on a freshly built client. -/
theorem C9_messageCacheDead_witness :
    clientOpState stExample (ClientOp.sendMessage "+1" "hi") wMsg = stExample ∧
    (runClientOps stExample
      [(ClientOp.getContactInfo "+1", wMsg),
       (ClientOp.sendMessage "+1" "hi", wMsg)]).messageCache = [] :=
  ⟨(C9_messageCacheDead stExample (ClientOp.sendMessage "+1" "hi") wMsg).2.2.1
      (fun _ h => ClientOp.noConfusion h),
   (C9_messageCacheDead stExample (ClientOp.sendMessage "+1" "hi") wMsg).2.2.2
      (some cfgCred) env0 stExample rfl
      [(ClientOp.getContactInfo "+1", wMsg), (ClientOp.sendMessage "+1" "hi", wMsg)]⟩

/-! ## C1: required-parameter validation across the tool catalog -/

/-- C1: for every tool of the catalog and every parameter marked required in
its manifest, invoking the tool's handler with that parameter absent from
the parameter record makes no client call (hence no network request) and
fails with a validation error whose message names that parameter. -/
theorem C1_requiredParams :
    ∀ m ∈ getChatManifestsModel, ∀ p ∈ m.required,
    ∀ (params : Params) (st : ClientState) (w : World),
    getF params p = JsValue.vundefined →
    (toolDispatch true m.name params st w).2.1 = [] ∧
    ∃ msg, (toolDispatch true m.name params st w).1 = Except.error msg ∧
      strContains msg p := by
  intro m hm
  simp only [getChatManifestsModel, List.mem_cons, List.not_mem_nil, or_false] at hm
  rcases hm with rfl | rfl | rfl | rfl | rfl | rfl | rfl | rfl | rfl <;>
    intro p hp <;>
    simp only [List.mem_cons, List.not_mem_nil, or_false] at hp
  · rcases hp with rfl | rfl
    · intro params st w h
      refine ⟨?_, "Missing required parameters: to, message", ?_, "Missing required parameters: ", ", message", by decide⟩ <;>
        simp [toolDispatch, methodName_send_message, h, truthy]
    · intro params st w h
      refine ⟨?_, "Missing required parameters: to, message", ?_, "Missing required parameters: to, ", "", by decide⟩ <;>
        simp [toolDispatch, methodName_send_message, h, truthy]
  · rcases hp with rfl | rfl | rfl
    · intro params st w h
      refine ⟨?_, "Missing required parameters: to, templateName, language", ?_, "Missing required parameters: ", ", templateName, language", by decide⟩ <;>
        simp [toolDispatch, methodName_send_template, h, truthy]
    · intro params st w h
      refine ⟨?_, "Missing required parameters: to, templateName, language", ?_, "Missing required parameters: to, ", ", language", by decide⟩ <;>
        simp [toolDispatch, methodName_send_template, h, truthy]
    · intro params st w h
      refine ⟨?_, "Missing required parameters: to, templateName, language", ?_, "Missing required parameters: to, templateName, ", "", by decide⟩ <;>
        simp [toolDispatch, methodName_send_template, h, truthy]
  · rcases hp with rfl | rfl
    · intro params st w h
      refine ⟨?_, "Missing required parameters: to, type, (url or filePath)", ?_, "Missing required parameters: ", ", type, (url or filePath)", by decide⟩ <;>
        simp [toolDispatch, methodName_send_media, h, truthy]
    · intro params st w h
      refine ⟨?_, "Missing required parameters: to, type, (url or filePath)", ?_, "Missing required parameters: to, ", ", (url or filePath)", by decide⟩ <;>
        simp [toolDispatch, methodName_send_media, h, truthy]
  · rcases hp with rfl | rfl | rfl | rfl
    · intro params st w h
      refine ⟨?_, "Missing required parameters: to, type, body, action", ?_, "Missing required parameters: ", ", type, body, action", by decide⟩ <;>
        simp [toolDispatch, methodName_send_interactive, h, truthy]
    · intro params st w h
      refine ⟨?_, "Missing required parameters: to, type, body, action", ?_, "Missing required parameters: to, ", ", body, action", by decide⟩ <;>
        simp [toolDispatch, methodName_send_interactive, h, truthy]
    · intro params st w h
      refine ⟨?_, "Missing required parameters: to, type, body, action", ?_, "Missing required parameters: to, type, ", ", action", by decide⟩ <;>
        simp [toolDispatch, methodName_send_interactive, h, truthy]
    · intro params st w h
      refine ⟨?_, "Missing required parameters: to, type, body, action", ?_, "Missing required parameters: to, type, body, ", "", by decide⟩ <;>
        simp [toolDispatch, methodName_send_interactive, h, truthy]
  · rcases hp with rfl | rfl | rfl
    · intro params st w h
      refine ⟨?_, "Missing required parameters: to, latitude, longitude", ?_, "Missing required parameters: ", ", latitude, longitude", by decide⟩ <;>
        simp [toolDispatch, methodName_send_location, h, truthy]
    · intro params st w h
      refine ⟨?_, "Missing required parameters: to, latitude, longitude", ?_, "Missing required parameters: to, ", ", longitude", by decide⟩ <;>
        simp [toolDispatch, methodName_send_location, h, truthy]
    · intro params st w h
      refine ⟨?_, "Missing required parameters: to, latitude, longitude", ?_, "Missing required parameters: to, latitude, ", "", by decide⟩ <;>
        simp [toolDispatch, methodName_send_location, h, truthy]
  · subst hp
    intro params st w h
    refine ⟨?_, "Missing required parameter: messageId", ?_, "Missing required parameter: ", "", by decide⟩ <;>
      simp [toolDispatch, methodName_mark_as_read, h, truthy]
  · subst hp
    intro params st w h
    refine ⟨?_, "Missing required parameter: phoneNumber", ?_, "Missing required parameter: ", "", by decide⟩ <;>
      simp [toolDispatch, methodName_get_contact_info, h, truthy]

/-- C1 witness: the send-message tool invoked with an empty parameter
record makes no client call and fails with a message naming `to`. -/
theorem C1_requiredParams_witness :
    (toolDispatch true "whatsapp_send_message" [] stExample wMsg).2.1 = [] ∧
    ∃ msg, (toolDispatch true "whatsapp_send_message" [] stExample wMsg).1 =
      Except.error msg ∧ strContains msg "to" :=
  C1_requiredParams
    { name := "whatsapp_send_message",
      description := "Send a WhatsApp text message to a contact",
      required := ["to", "message"] }
    (by decide) "to" (by decide) [] stExample wMsg rfl

/-! ## C8: executing an unregistered tool; removing a tool -/

/-- A freshly constructed plugin (the nine catalog tools registered and
exposed). -/
def psInit : PluginState := pluginNew (some cfgCred) env0

/-- A tool outside the static catalog. -/
def extraTool : Tool := { name := "custom_tool", description := "a custom tool" }

/-- The plugin after registering the extra tool: the map has ten entries but
`config.tools` still has nine. -/
def psReg : PluginState := registerToolModel psInit extraTool

/-- C8 counterexample: removing a tool that was registered after
construction does NOT shrink `config.tools` — `registerTool` had never added
it there, so the refresh performed by `removeTool` leaves the exposed list
at its previous length, refuting "shrinks the exposed tool list
(config.tools) by exactly one entry". -/
theorem C8_counterexample :
    mapLookup psReg.tools "custom_tool" = some extraTool ∧
    (removeToolModel psReg "custom_tool").1 = true ∧
    (removeToolModel psReg "custom_tool").2.configTools.length =
      psReg.configTools.length := by decide

/-- C8 (amended): executing an unregistered tool name fails with the
"Tool <name> not found" error; removing a registered tool returns `true`,
makes subsequent `getTool`/`hasTool` lookups fail (the tool map has unique
keys, as a JavaScript `Map` does), and resets `config.tools` to the
remaining map values, so the exposed list ends up one entry shorter than
the map was before the call — which is one shorter than the previous
`config.tools` exactly when that list was in sync with the map. -/
theorem C8_executeRemove (ps : PluginState) (name : String) :
    (mapLookup ps.tools name = none →
      executeToolModel ps name = Except.error ("Tool " ++ name ++ " not found")) ∧
    (∀ t, mapLookup ps.tools name = some t →
      (ps.tools.map Prod.fst).Nodup →
      (removeToolModel ps name).1 = true ∧
      getToolModel (removeToolModel ps name).2 name = none ∧
      hasToolModel (removeToolModel ps name).2 name = false ∧
      (removeToolModel ps name).2.configTools = mapValues (mapErase ps.tools name) ∧
      (removeToolModel ps name).2.configTools.length + 1 = ps.tools.length ∧
      (ps.configTools = mapValues ps.tools →
        (removeToolModel ps name).2.configTools.length + 1 = ps.configTools.length)) := by
  constructor
  · intro h
    simp only [executeToolModel, getToolModel, h]
  · intro t ht hnd
    have herase : mapLookup (mapErase ps.tools name) name = none :=
      mapLookup_mapErase_self ps.tools name hnd
    have hlen : (mapErase ps.tools name).length + 1 = ps.tools.length :=
      mapErase_length ps.tools name t ht
    refine ⟨?_, ?_, ?_, rfl, ?_, ?_⟩
    · simp [removeToolModel, ht]
    · exact herase
    · simp [hasToolModel, removeToolModel, herase]
    · simpa [removeToolModel, mapValues] using hlen
    · intro hsync
      rw [hsync]
      simpa [removeToolModel, mapValues] using hlen

/-- C8 witness: the amended theorem applied to the freshly registered extra
tool and to a name that was never registered. -/
theorem C8_executeRemove_witness :
    executeToolModel psInit "whatsapp_delete_account" =
      Except.error ("Tool " ++ "whatsapp_delete_account" ++ " not found") ∧
    ((removeToolModel psReg "custom_tool").1 = true ∧
      getToolModel (removeToolModel psReg "custom_tool").2 "custom_tool" = none ∧
      hasToolModel (removeToolModel psReg "custom_tool").2 "custom_tool" = false ∧
      (removeToolModel psReg "custom_tool").2.configTools =
        mapValues (mapErase psReg.tools "custom_tool") ∧
      (removeToolModel psReg "custom_tool").2.configTools.length + 1 =
        psReg.tools.length ∧
      (psReg.configTools = mapValues psReg.tools →
        (removeToolModel psReg "custom_tool").2.configTools.length + 1 =
          psReg.configTools.length)) :=
  ⟨(C8_executeRemove psInit "whatsapp_delete_account").1 (by decide),
   (C8_executeRemove psReg "custom_tool").2 extraTool (by decide) (by decide)⟩

/-! ## C10: registerTool leaves the exposed tool list untouched -/

/-- C10: `registerTool` adds the tool to the internal map — `getTool`,
`hasTool`, `getToolCount` and `executeTool` all see it — but leaves
`config.tools` unchanged; `removeTool` and `initializeTools` are the
operations that resynchronize `config.tools` with the map's values. -/
theorem C10_registerTool (ps : PluginState) (t : Tool) :
    (registerToolModel ps t).configTools = ps.configTools ∧
    (registerToolModel ps t).tools = mapSet ps.tools t.name t ∧
    getToolModel (registerToolModel ps t) t.name = some t ∧
    hasToolModel (registerToolModel ps t) t.name = true ∧
    getToolCountModel (registerToolModel ps t) = (mapSet ps.tools t.name t).length ∧
    executeToolModel (registerToolModel ps t) t.name = Except.ok t ∧
    (∀ name, (removeToolModel ps name).2.configTools =
      mapValues (mapErase ps.tools name)) ∧
    (initializeToolsModel ps.tools).2 = mapValues (initializeToolsModel ps.tools).1 := by
  refine ⟨rfl, rfl, ?_, ?_, rfl, ?_, fun name => rfl, rfl⟩
  · exact mapLookup_mapSet_self ps.tools t.name t
  · simp [hasToolModel, registerToolModel, mapLookup_mapSet_self]
  · simp only [executeToolModel, getToolModel, registerToolModel,
      mapLookup_mapSet_self]
